import Mathlib

/-!
Verification of the `niniteclassic` Go package (`classic/classic.go`).

The package is a shim around an external deployment executable: a
configuration record is turned into a command-line argument list by
`composeArgs`, the subprocess standard output gets parsed line by line
against one of three anchored regular expressions, and matched lines are
delivered as records over a channel; after end-of-stream the channel is
closed, standard error is drained, and the process exit status takes
precedence over captured standard-error content as the returned error.

The development below embeds:
  * the three regular expressions (`statusMatch`, `versionMatch`,
    `auditMatch`) via a small backtracking matcher with Go/RE2
    leftmost-first, greedy-preference submatch semantics (the patterns
    are `^...$` anchored with no multiline flag, so `FindStringSubmatch`
    succeeds exactly when the whole subject string matches);
  * the per-line record construction of `UpdateOnly`, `List`, `Audit`;
  * `composeArgs` and the configuration record `Classic`;
  * the read loop / completion logic shared by the verb methods, as a
    function from an abstract process outcome (delivered lines, terminal
    read event, standard-error content, exit status) to the ordered list
    of channel events and the returned error.
-/

namespace NiniteClassic

/-- Submatch captures for the three patterns: each pattern has exactly
three capture groups (indices 1, 2, 3 in the Go `FindStringSubmatch`
numbering).  A group that did not participate in the match keeps the
empty string, exactly as the Go `FindStringSubmatch` function reports it. -/
structure Caps where
  g1 : String
  g2 : String
  g3 : String
  deriving DecidableEq, Repr

/-- Initial capture state: no group has participated. -/
def Caps.init : Caps := ⟨"", "", ""⟩

/-- Record a capture for group `i` (groups 1..3). -/
def Caps.set (m : Caps) (i : Nat) (v : String) : Caps :=
  if i = 1 then { m with g1 := v }
  else if i = 2 then { m with g2 := v }
  else if i = 3 then { m with g3 := v }
  else m

/-- Regular-expression abstract syntax sufficient for the three patterns
in the source: literals, single characters from a class, concatenation,
greedy option, greedy star/plus of a character class, and numbered
capture groups. -/
inductive RE where
  | lit (c : Char)
  | cls (p : Char → Bool)
  | seq (a b : RE)
  | opt (a : RE)
  | star (p : Char → Bool)
  | plus (p : Char → Bool)
  | group (i : Nat) (a : RE)

/-- Greedy star over a character class in continuation-passing style:
the longest extension is tried first and shorter ones on backtracking,
which is the Go (leftmost-first) preference order for `x*`. -/
def starRun (p : Char → Bool) : List Char → (List Char → Option Caps) → Option Caps
  | [], k => k []
  | c :: rest, k =>
    if p c then (starRun p rest k) <|> k (c :: rest) else k (c :: rest)

/-- Backtracking matcher in continuation-passing style.  `reMatch re s
caps k` tries to match a prefix of `s` against `re`, extending `caps`,
and calls `k` with the remaining suffix and updated captures; greedy
operators try the longer alternative first, so the first success is the
match that the Go leftmost-first submatch semantics selects. -/
def reMatch : RE → List Char → Caps → (List Char → Caps → Option Caps) → Option Caps
  | .lit c, s, caps, k =>
    match s with
    | [] => none
    | d :: rest => if d = c then k rest caps else none
  | .cls p, s, caps, k =>
    match s with
    | [] => none
    | d :: rest => if p d then k rest caps else none
  | .seq a b, s, caps, k =>
    reMatch a s caps (fun rest caps2 => reMatch b rest caps2 k)
  | .opt a, s, caps, k => (reMatch a s caps k) <|> k s caps
  | .star p, s, caps, k => starRun p s (fun rest => k rest caps)
  | .plus p, s, caps, k =>
    match s with
    | [] => none
    | c :: rest => if p c then starRun p rest (fun rest2 => k rest2 caps) else none
  | .group i a, s, caps, k =>
    reMatch a s caps (fun rest caps2 =>
      k rest (caps2.set i (String.mk (s.take (s.length - rest.length)))))

/-- Whole-string match.  The three source patterns are anchored `^...$`
with no multiline flag, so the Go `FindStringSubmatch` function returns a
(sub)match exactly when the entire subject matches; the result is the
capture assignment of the first match in leftmost-first order. -/
def regexFullMatch (re : RE) (line : String) : Option Caps :=
  reMatch re line.toList Caps.init (fun rest caps =>
    if rest.isEmpty then some caps else none)

/-- Go/RE2 `\s` character class: `[\t\n\f\r ]`. -/
def goSpace (c : Char) : Bool :=
  c = ' ' || c = '\t' || c = '\n' || c = '\x0c' || c = '\r'

/-- Character class `[^:\r\n]` of the `app` capture group. -/
def appChar (c : Char) : Bool := !(c = ':' || c = '\r' || c = '\n')

/-- Character class `[^\r\n\(\)]` of the `status` and `version` groups. -/
def statusChar (c : Char) : Bool :=
  !(c = '\r' || c = '\n' || c = '(' || c = ')')

/-- Character class `[^\r\n\(\)\-]` of the audit `status` group. -/
def auditStatusChar (c : Char) : Bool :=
  !(c = '\r' || c = '\n' || c = '(' || c = ')' || c = '-')

/-- Go `.` with the default flags: any character except newline. -/
def goDot (c : Char) : Bool := !(c = '\n')

/-- Character class `[\*\(]` of the version `type` marker group. -/
def markerChar (c : Char) : Bool := c = '*' || c = '('

/-- Embedding of the source pattern
`^\s*(?P<app>[^:\r\n]+)\s+:\s+(?P<status>[^\r\n\(\)]+)(?:\s+\((?P<reason>.+)\))?$`. -/
def statusMatch : RE :=
  .seq (.star goSpace)
  (.seq (.group 1 (.plus appChar))
  (.seq (.plus goSpace)
  (.seq (.lit ':')
  (.seq (.plus goSpace)
  (.seq (.group 2 (.plus statusChar))
        (.opt (.seq (.plus goSpace)
              (.seq (.lit '(')
              (.seq (.group 3 (.plus goDot))
                    (.lit ')'))))))))))

/-- Embedding of the source pattern
`^\s*(?P<app>[^:\r\n]+)\s+:\s+(?P<type>[\*\(])?(?P<version>[^\r\n\(\)]+)\)?$`. -/
def versionMatch : RE :=
  .seq (.star goSpace)
  (.seq (.group 1 (.plus appChar))
  (.seq (.plus goSpace)
  (.seq (.lit ':')
  (.seq (.plus goSpace)
  (.seq (.opt (.group 2 (.cls markerChar)))
  (.seq (.group 3 (.plus statusChar))
        (.opt (.lit ')'))))))))

/-- Embedding of the source pattern
`^\s*(?P<app>[^:\r\n]+)\s+:\s+(?P<status>[^\r\n\(\)\-]+)(?:\s+-\s+(?P<version>.+))?$`. -/
def auditMatch : RE :=
  .seq (.star goSpace)
  (.seq (.group 1 (.plus appChar))
  (.seq (.plus goSpace)
  (.seq (.lit ':')
  (.seq (.plus goSpace)
  (.seq (.group 2 (.plus auditStatusChar))
        (.opt (.seq (.plus goSpace)
              (.seq (.lit '-')
              (.seq (.plus goSpace)
                    (.group 3 (.plus goDot)))))))))))

/-- Status record (`Status` in the source). -/
structure Status where
  App : String
  Status : String
  Reason : String
  Version : String
  deriving DecidableEq, Repr

/-- Available app version record (`AppVersion` in the source). -/
structure AppVersion where
  App : String
  Version : String
  CurrentVersion : Bool
  AlternateVersion : Bool
  deriving DecidableEq, Repr

/-- Audit record (`AppAudit` in the source). -/
structure AppAudit where
  App : String
  Version : String
  Status : String
  Installed : Bool
  deriving DecidableEq, Repr

/-- Per-line record construction of `UpdateOnly` (and `Uninstall`): a
line matching `statusMatch` yields `Status{App: m[1], Status: m[2],
Reason: m[3]}` (the `Version` field keeps its zero value); a
non-matching line yields nothing. -/
def updateOnlyParseLine (line : String) : Option Status :=
  match regexFullMatch statusMatch line with
  | none => none
  | some m => some { App := m.g1, Status := m.g2, Reason := m.g3, Version := "" }

/-- Per-line record construction of `List`: a line matching
`versionMatch` yields `AppVersion{App: m[1], Version: m[3]}` with
`CurrentVersion` set when the marker capture is `*` and
`AlternateVersion` set when it is `(` (both start false). -/
def listParseLine (line : String) : Option AppVersion :=
  match regexFullMatch versionMatch line with
  | none => none
  | some m =>
    let flags : Bool × Bool :=
      if m.g2 = "*" then (true, false)
      else if m.g2 = "(" then (false, true)
      else (false, false)
    some { App := m.g1, Version := m.g3,
           CurrentVersion := flags.1, AlternateVersion := flags.2 }

/-- Per-line record construction of `Audit`: a line matching
`auditMatch` yields `AppAudit{App: m[1], Status: m[2], Version: m[3]}`
with `Installed` set exactly when `len(m[3]) > 0`. -/
def auditParseLine (line : String) : Option AppAudit :=
  match regexFullMatch auditMatch line with
  | none => none
  | some m =>
    let installed : Bool := if m.g3.length > 0 then true else false
    some { App := m.g1, Status := m.g2, Version := m.g3, Installed := installed }

/-- Proxy sub-record of the configuration. -/
structure ProxyConfig where
  server : String
  port : Int
  deriving DecidableEq, Repr

/-- Username/password pair (proxy and remote credentials). -/
structure AuthConfig where
  username : String
  password : String
  deriving DecidableEq, Repr

/-- Freeze verb sub-record of the configuration. -/
structure FreezeConfig where
  outputFilename : String
  locales : List String
  deriving DecidableEq, Repr

/-- Configuration record (`Classic` in the source). -/
structure Classic where
  path : String
  locale : String
  proxy : ProxyConfig
  proxyAuth : AuthConfig
  selectedApps : List String
  excludedApps : List String
  remote : List String
  remoteAuth : AuthConfig
  disableShortcuts : Bool
  disableAutoUpdate : Bool
  allUsers : Bool
  cachePath : String
  noCache : Bool
  cleanCache : Bool
  updateOnly : Bool
  uninstall : Bool
  freeze : FreezeConfig
  list : Bool
  deriving DecidableEq, Repr

/-- Embedding of `composeArgs`, step for step: `args` starts as
`{"/silent", "."}` and each set option appends its flags in source
order (the Go `strconv.Itoa` call on the port is base-10 integer formatting,
i.e. `toString` on `Int`). -/
def composeArgs (c : Classic) : List String :=
  let args := ["/silent", "."]
  let args := if c.locale ≠ "" then args ++ ["/locale", c.locale] else args
  let args := if c.proxy.server ≠ "" ∧ c.proxy.port ≠ 0 then
      args ++ ["/proxy", c.proxy.server, toString c.proxy.port] else args
  let args := if c.proxyAuth.username ≠ "" ∧ c.proxyAuth.password ≠ "" then
      args ++ ["/proxyauth", c.proxyAuth.username, c.proxyAuth.password] else args
  let args := if c.selectedApps.length > 0 then
      (args ++ ["/select"]) ++ c.selectedApps else args
  let args := if c.excludedApps.length > 0 then
      (args ++ ["/exclude"]) ++ c.excludedApps else args
  let args := if c.remote.length > 0 then
      (args ++ ["/remote"]) ++ c.remote else args
  let args := if c.remoteAuth.username ≠ "" ∧ c.remoteAuth.password ≠ "" then
      args ++ ["/remoteauth", c.remoteAuth.username, c.remoteAuth.password] else args
  let args := if c.disableShortcuts then args ++ ["/disableshortcuts"] else args
  let args := if c.disableAutoUpdate then args ++ ["/disableautoupdate"] else args
  let args := if c.allUsers then args ++ ["/allusers"] else args
  let args := if c.cachePath ≠ "" then args ++ ["/cachepath", c.cachePath] else args
  let args := if c.noCache then args ++ ["/nocache"] else args
  let args := if c.cleanCache then args ++ ["/cleancache"] else args
  let args := if c.updateOnly then args ++ ["/updateonly"] else args
  let args := if c.freeze.outputFilename ≠ "" then
      let args := args ++ ["/freeze"]
      let args := if c.freeze.locales.length > 0 then args ++ c.freeze.locales else args
      args ++ [c.freeze.outputFilename]
    else args
  let args := if c.list then args ++ ["/list", "versions"] else args
  args

/-- Silent-mode invocation, always first: the `/silent` flag and its
report argument `.` (report to standard output). -/
def silentArgs : List String := ["/silent", "."]

/-- Locale attribute segment. -/
def localeArgs (c : Classic) : List String :=
  if c.locale ≠ "" then ["/locale", c.locale] else []

/-- Proxy attribute segment: present exactly when the server is
non-empty and the port is non-zero. -/
def proxyArgs (c : Classic) : List String :=
  if c.proxy.server ≠ "" ∧ c.proxy.port ≠ 0 then
    ["/proxy", c.proxy.server, toString c.proxy.port] else []

/-- Proxy-credentials attribute segment. -/
def proxyAuthArgs (c : Classic) : List String :=
  if c.proxyAuth.username ≠ "" ∧ c.proxyAuth.password ≠ "" then
    ["/proxyauth", c.proxyAuth.username, c.proxyAuth.password] else []

/-- Selected-apps attribute segment. -/
def selectArgs (c : Classic) : List String :=
  if c.selectedApps.length > 0 then "/select" :: c.selectedApps else []

/-- Excluded-apps attribute segment. -/
def excludeArgs (c : Classic) : List String :=
  if c.excludedApps.length > 0 then "/exclude" :: c.excludedApps else []

/-- Remote-targets attribute segment. -/
def remoteArgs (c : Classic) : List String :=
  if c.remote.length > 0 then "/remote" :: c.remote else []

/-- Remote-credentials attribute segment. -/
def remoteAuthArgs (c : Classic) : List String :=
  if c.remoteAuth.username ≠ "" ∧ c.remoteAuth.password ≠ "" then
    ["/remoteauth", c.remoteAuth.username, c.remoteAuth.password] else []

/-- Disable-shortcuts attribute segment. -/
def disableShortcutsArgs (c : Classic) : List String :=
  if c.disableShortcuts then ["/disableshortcuts"] else []

/-- Disable-auto-update attribute segment. -/
def disableAutoUpdateArgs (c : Classic) : List String :=
  if c.disableAutoUpdate then ["/disableautoupdate"] else []

/-- All-users attribute segment. -/
def allUsersArgs (c : Classic) : List String :=
  if c.allUsers then ["/allusers"] else []

/-- Cache-path attribute segment. -/
def cachePathArgs (c : Classic) : List String :=
  if c.cachePath ≠ "" then ["/cachepath", c.cachePath] else []

/-- No-cache attribute segment. -/
def noCacheArgs (c : Classic) : List String :=
  if c.noCache then ["/nocache"] else []

/-- Clean-cache attribute segment. -/
def cleanCacheArgs (c : Classic) : List String :=
  if c.cleanCache then ["/cleancache"] else []

/-- All attribute segments in the fixed order: locale, proxy, proxy
credentials, selected apps, excluded apps, remote targets, remote
credentials, disable-shortcuts, disable-auto-update, all-users, cache
path, no-cache, clean-cache. -/
def attrArgs (c : Classic) : List String :=
  localeArgs c ++ proxyArgs c ++ proxyAuthArgs c ++ selectArgs c ++
  excludeArgs c ++ remoteArgs c ++ remoteAuthArgs c ++
  disableShortcutsArgs c ++ disableAutoUpdateArgs c ++ allUsersArgs c ++
  cachePathArgs c ++ noCacheArgs c ++ cleanCacheArgs c

/-- Update-only verb segment. -/
def updateOnlyArgs (c : Classic) : List String :=
  if c.updateOnly then ["/updateonly"] else []

/-- Freeze verb segment: the flag, the optional locale list, and the
mandatory output filename; present exactly when the output filename is
set. -/
def freezeArgs (c : Classic) : List String :=
  if c.freeze.outputFilename ≠ "" then
    ["/freeze"] ++ (if c.freeze.locales.length > 0 then c.freeze.locales else [])
      ++ [c.freeze.outputFilename]
  else []

/-- List verb segment. -/
def listArgs (c : Classic) : List String :=
  if c.list then ["/list", "versions"] else []

/-- Verb segments in the fixed order: update-only, freeze, list. -/
def verbArgs (c : Classic) : List String :=
  updateOnlyArgs c ++ freezeArgs c ++ listArgs c

/-- Specification-side argument list: the silent-mode invocation first,
then the attribute segments in their fixed order, then the verb
segments. -/
def composeArgsSpec (c : Classic) : List String :=
  silentArgs ++ attrArgs c ++ verbArgs c

/-- Configuration mutation performed by the `Uninstall` method before
launching: it only sets the `uninstall` field. -/
def uninstallConfig (c : Classic) : Classic := { c with uninstall := true }

/-- Zero value `Classic{}` of the configuration record. -/
def Classic.zero : Classic :=
  { path := "", locale := "", proxy := ⟨"", 0⟩, proxyAuth := ⟨"", ""⟩,
    selectedApps := [], excludedApps := [], remote := [],
    remoteAuth := ⟨"", ""⟩, disableShortcuts := false,
    disableAutoUpdate := false, allUsers := false, cachePath := "",
    noCache := false, cleanCache := false, updateOnly := false,
    uninstall := false, freeze := ⟨"", []⟩, list := false }

/-- Embedding of `Prefer`: the body is `if true { panic("Unimplemented") }`
followed by an unreachable `return Classic{}`; the panic is modelled as
an exceptional result. -/
def Prefer (_c : Classic) : Except String Classic :=
  if true then Except.error "Unimplemented"
  else Except.ok Classic.zero

/-- Error returned by a verb method after the subprocess has started. -/
inductive RunError where
  | readFail (msg : String)
  | exitFail (msg : String)
  | stderrFail (content : String)
  deriving DecidableEq, Repr

/-- Observable actions of a verb method on its channel and on the
standard error of the subprocess, in order of occurrence. -/
inductive ChanEvent (α : Type) where
  | emit (a : α)
  | close
  | drainStderr
  deriving DecidableEq, Repr

/-- Abstract outcome of one subprocess run: the lines successfully read
from standard output (each `ReadString` call that returned no error), the
terminal read event (`none` for end-of-stream, `some e` for a read
failure delivered after the listed lines), the standard-error content,
and the exit status (`none` for a clean exit, `some w` for a failed
`cmd.Wait`). -/
structure ProcOutput where
  lines : List String
  readErr : Option String
  stderr : String
  exitErr : Option String
  deriving DecidableEq, Repr

/-- The shared read loop of the verb methods: each successfully read
line is matched against the active pattern and, on a match, one record
is sent on the channel; at end-of-stream the channel is closed and the
loop exits normally, while a read failure aborts the loop (returning the
error, channel left open). -/
def readLoop (parse : String → Option α) :
    List String → Option String → List (ChanEvent α) × Option String
  | [], none => ([ChanEvent.close], none)
  | [], some e => ([], some e)
  | l :: ls, re =>
    let rest := readLoop parse ls re
    match parse l with
    | some a => (ChanEvent.emit a :: rest.1, rest.2)
    | none => rest

/-- The shared post-start logic of the verb methods: run the read loop;
on a read failure return it at once (standard error is not drained).
Otherwise drain standard error, remember its content as an error when
non-empty, and return the `cmd.Wait` failure if there is one, else the
remembered standard-error failure, else success. -/
def runOp (parse : String → Option α) (p : ProcOutput) :
    List (ChanEvent α) × Option RunError :=
  let r := readLoop parse p.lines p.readErr
  match r.2 with
  | some e => (r.1, some (RunError.readFail e))
  | none =>
    let events := r.1 ++ [ChanEvent.drainStderr]
    let stderrResult : Option RunError :=
      if p.stderr ≠ "" then some (RunError.stderrFail p.stderr) else none
    match p.exitErr with
    | some w => (events, some (RunError.exitFail w))
    | none => (events, stderrResult)

/-- The `UpdateOnly` verb method after a successful start, as a function
of the abstract subprocess outcome. -/
def updateOnlyRun (p : ProcOutput) : List (ChanEvent Status) × Option RunError :=
  runOp updateOnlyParseLine p

/-- Conditional append in the one-append shape used by `composeArgs`,
rewritten to segment form. -/
theorem ite_append_segment {α : Type} (b : Prop) [Decidable b] (x s : List α) :
    (if b then x ++ s else x) = x ++ (if b then s else []) := by
  split <;> simp

/-- Conditional append in the two-append shape used by `composeArgs`
(select, exclude, remote), rewritten to segment form. -/
theorem ite_append_segment2 {α : Type} (b : Prop) [Decidable b] (x s t : List α) :
    (if b then (x ++ s) ++ t else x) = x ++ (if b then s ++ t else []) := by
  split <;> simp

/-- Conditional append in the three-append shape used by `composeArgs`
(freeze), rewritten to segment form. -/
theorem ite_append_segment3 {α : Type} (b : Prop) [Decidable b] (x s t u : List α) :
    (if b then ((x ++ s) ++ t) ++ u else x) = x ++ (if b then (s ++ t) ++ u else []) := by
  split <;> simp

/-- A string has positive length exactly when it is non-empty. -/
theorem string_length_pos_iff (s : String) : 0 < s.length ↔ s ≠ "" := by
  cases s with
  | mk data => cases data <;> simp [String.length, String.ext_iff]

/-- Behaviour of the read loop when the stream ends with end-of-stream:
one emission per matching line in input order, then the channel close,
and a normal exit. -/
theorem readLoop_eof {α : Type} (parse : String → Option α) (ls : List String) :
    readLoop parse ls none =
      ((ls.filterMap parse).map ChanEvent.emit ++ [ChanEvent.close], none) := by
  induction ls with
  | nil => rfl
  | cons l ls ih =>
    cases hp : parse l <;> simp [readLoop, ih, hp, List.filterMap_cons]

/-- Behaviour of the read loop when the stream ends with a read failure:
one emission per matching line in input order, no channel close, and the
failure is handed back. -/
theorem readLoop_fail {α : Type} (parse : String → Option α) (ls : List String)
    (e : String) :
    readLoop parse ls (some e) =
      ((ls.filterMap parse).map ChanEvent.emit, some e) := by
  induction ls with
  | nil => rfl
  | cons l ls ih =>
    cases hp : parse l <;> simp [readLoop, ih, hp, List.filterMap_cons]

/-- C1: for every configuration, `composeArgs` produces exactly the
silent-mode invocation first, then the attribute segments of the set
options in the fixed order locale, proxy, proxy credentials, selected
apps, excluded apps, remote targets, remote credentials,
disable-shortcuts, disable-auto-update, all-users, cache path, no-cache,
clean-cache, then the verb segments update-only, freeze (optional locale
list, mandatory output filename), list; and the proxy segment is present
exactly when the proxy server is non-empty and the port is non-zero. -/
theorem composeArgs_matches_spec (c : Classic) :
    composeArgs c = composeArgsSpec c ∧
    (proxyArgs c ≠ [] ↔ (c.proxy.server ≠ "" ∧ c.proxy.port ≠ 0)) := by
  constructor
  · simp only [composeArgs, ite_append_segment3, ite_append_segment2,
      ite_append_segment]
    simp [composeArgsSpec, silentArgs, attrArgs, verbArgs,
      localeArgs, proxyArgs, proxyAuthArgs, selectArgs, excludeArgs,
      remoteArgs, remoteAuthArgs, disableShortcutsArgs, disableAutoUpdateArgs,
      allUsersArgs, cachePathArgs, noCacheArgs, cleanCacheArgs,
      updateOnlyArgs, freezeArgs, listArgs, List.append_assoc]
  · by_cases h : c.proxy.server ≠ "" ∧ c.proxy.port ≠ 0 <;> simp [proxyArgs, h]

/-- C9: the `uninstall` field is never read by `composeArgs`, so the
configuration mutation performed by `Uninstall` leaves the argument list
unchanged; and when no other verb field is set (as for any configuration
built through the exported setters) the composed list carries no verb
flag at all. -/
theorem composeArgs_ignores_uninstall (c : Classic) :
    composeArgs (uninstallConfig c) = composeArgs c ∧
    (c.updateOnly = false → c.freeze.outputFilename = "" → c.list = false →
      verbArgs (uninstallConfig c) = []) := by
  constructor
  · rfl
  · intro h1 h2 h3
    simp [verbArgs, updateOnlyArgs, freezeArgs, listArgs, uninstallConfig,
      h1, h2, h3]

/-- Witness for `composeArgs_ignores_uninstall` at the zero
configuration. -/
theorem composeArgs_ignores_uninstall_witness :
    composeArgs (uninstallConfig Classic.zero) = composeArgs Classic.zero ∧
    verbArgs (uninstallConfig Classic.zero) = [] :=
  ⟨(composeArgs_ignores_uninstall Classic.zero).1,
   (composeArgs_ignores_uninstall Classic.zero).2 rfl rfl rfl⟩

/-- C10: `Prefer` reaches the unconditional `panic("Unimplemented")` on
every configuration and never produces a configuration. -/
theorem Prefer_always_panics (c : Classic) :
    Prefer c = Except.error "Unimplemented" := rfl

/-- C2 counterexample: on the line `App Name : (2.0.0)` the delivered
version text is `2.0.0`, not `2.0.0)`; the version capture class
excludes parentheses and the trailing parenthesis is consumed by the
optional closing-parenthesis literal of the pattern. -/
theorem versionParse_alternate_counterexample :
    (listParseLine "App Name : (2.0.0)").map AppVersion.Version = some "2.0.0" ∧
    (listParseLine "App Name : (2.0.0)").map AppVersion.Version ≠ some "2.0.0)" := by
  constructor
  · rfl
  · decide

/-- C2 amended: the alternate-marker capture does not include a trailing
parenthesis: the line `App Name : (2.0.0)` yields Version `2.0.0` with
`AlternateVersion` set, and the current-marker line `App Name : *1.2.3`
likewise yields a version text carrying no marker character. -/
theorem versionParse_alternate_marker :
    listParseLine "App Name : (2.0.0)" =
      some { App := "App Name", Version := "2.0.0",
             CurrentVersion := false, AlternateVersion := true } ∧
    listParseLine "App Name : *1.2.3" =
      some { App := "App Name", Version := "1.2.3",
             CurrentVersion := true, AlternateVersion := false } :=
  ⟨rfl, rfl⟩

/-- C6: under the audit pattern, `App Name : Installed - 1.2.3` yields
`Installed = true` and `Version = "1.2.3"`, `App Name : Not Installed`
yields `Installed = false` and `Version = ""`, and for every matched
line the record has `Installed` set exactly when the captured version
substring is non-empty. -/
theorem auditParse_installed_iff_version :
    auditParseLine "App Name : Installed - 1.2.3" =
      some { App := "App Name", Version := "1.2.3",
             Status := "Installed", Installed := true } ∧
    auditParseLine "App Name : Not Installed" =
      some { App := "App Name", Version := "",
             Status := "Not Installed", Installed := false } ∧
    (∀ line r, auditParseLine line = some r →
      (r.Installed = true ↔ r.Version ≠ "")) := by
  refine ⟨rfl, rfl, ?_⟩
  intro line r h
  cases hm : regexFullMatch auditMatch line with
  | none => simp [auditParseLine, hm] at h
  | some m =>
    simp only [auditParseLine, hm, Option.some.injEq] at h
    subst h
    by_cases hg : m.g3 = ""
    · simp [hg]
    · have hp := (string_length_pos_iff m.g3).2 hg
      simp [hg, hp]

/-- Witness for `auditParse_installed_iff_version` at a concrete matched
line. -/
theorem auditParse_installed_iff_version_witness :
    auditParseLine "X : Installed - 1.0" =
      some { App := "X", Version := "1.0",
             Status := "Installed", Installed := true } ∧
    (({ App := "X", Version := "1.0", Status := "Installed",
        Installed := true } : AppAudit).Installed = true ↔
     ({ App := "X", Version := "1.0", Status := "Installed",
        Installed := true } : AppAudit).Version ≠ "") :=
  ⟨rfl, auditParse_installed_iff_version.2.2 "X : Installed - 1.0" _ rfl⟩

/-- C7: under the status pattern, `App Name : Installed` yields status
`Installed` with an empty reason, and `App Name : Installed (forced)`
yields status `Installed` with reason `forced`. -/
theorem statusParse_reason_examples :
    updateOnlyParseLine "App Name : Installed" =
      some { App := "App Name", Status := "Installed",
             Reason := "", Version := "" } ∧
    updateOnlyParseLine "App Name : Installed (forced)" =
      some { App := "App Name", Status := "Installed",
             Reason := "forced", Version := "" } :=
  ⟨rfl, rfl⟩

/-- C8: under the version pattern, `App Name : *1.2.3` yields version
`1.2.3` with `CurrentVersion` set and `AlternateVersion` clear; and a
matched line whose marker capture is empty yields a record with both
flags clear. -/
theorem versionParse_current_and_unmarked :
    listParseLine "App Name : *1.2.3" =
      some { App := "App Name", Version := "1.2.3",
             CurrentVersion := true, AlternateVersion := false } ∧
    (∀ line m, regexFullMatch versionMatch line = some m → m.g2 = "" →
      listParseLine line =
        some { App := m.g1, Version := m.g3,
               CurrentVersion := false, AlternateVersion := false }) := by
  refine ⟨rfl, ?_⟩
  intro line m h hm
  simp [listParseLine, h, hm]

/-- Witness for `versionParse_current_and_unmarked` at a concrete
marker-free line. -/
theorem versionParse_current_and_unmarked_witness :
    listParseLine "App : 1.2.3" =
      some { App := "App", Version := "1.2.3",
             CurrentVersion := false, AlternateVersion := false } :=
  versionParse_current_and_unmarked.2 "App : 1.2.3" ⟨"App", "", "1.2.3"⟩ rfl rfl

/-- C3: with the output stream fully read (end-of-stream reached), a
failed process exit takes precedence as the returned error over captured
standard-error content; a standard-error failure is returned only when
the process exited cleanly and carries the whole captured content; and a
failed exit after zero matching lines still returns the exit failure,
never a silent success. -/
theorem updateOnly_exit_status_precedence (p : ProcOutput)
    (hr : p.readErr = none) :
    (∀ w, p.exitErr = some w →
      (updateOnlyRun p).2 = some (RunError.exitFail w)) ∧
    (∀ s, (updateOnlyRun p).2 = some (RunError.stderrFail s) →
      p.exitErr = none ∧ s = p.stderr ∧ p.stderr ≠ "") ∧
    (p.lines.filterMap updateOnlyParseLine = [] → p.exitErr ≠ none →
      (updateOnlyRun p).2 ≠ none) := by
  refine ⟨?_, ?_, ?_⟩
  · intro w hw
    simp [updateOnlyRun, runOp, hr, readLoop_eof, hw]
  · intro s
    cases he : p.exitErr with
    | some w => simp [updateOnlyRun, runOp, hr, readLoop_eof, he]
    | none =>
      by_cases hse : p.stderr = "" <;>
        simp [updateOnlyRun, runOp, hr, readLoop_eof, he, hse] <;>
        intro hs <;> simp [hs, hse]
  · intro _ hne
    cases he : p.exitErr with
    | some w => simp [updateOnlyRun, runOp, hr, readLoop_eof, he]
    | none => exact absurd he hne

/-- Witness for `updateOnly_exit_status_precedence`: a failed exit with
non-empty standard error and zero matching lines returns the exit
failure. -/
theorem updateOnly_exit_status_precedence_witness :
    (updateOnlyRun ⟨["garbage"], none, "boom", some "exit status 1"⟩).2 =
      some (RunError.exitFail "exit status 1") :=
  (updateOnly_exit_status_precedence
    ⟨["garbage"], none, "boom", some "exit status 1"⟩ rfl).1 "exit status 1" rfl

/-- C4: with the output stream fully read, the channel carries exactly
one record per line matching the status pattern, in input (FIFO) order,
non-matching lines contribute nothing, and the channel close happens
before standard error is drained. -/
theorem updateOnly_fifo_close_before_drain (p : ProcOutput)
    (hr : p.readErr = none) :
    (updateOnlyRun p).1 =
      (p.lines.filterMap updateOnlyParseLine).map ChanEvent.emit ++
        [ChanEvent.close, ChanEvent.drainStderr] := by
  cases he : p.exitErr <;>
    simp [updateOnlyRun, runOp, hr, readLoop_eof, he]

/-- Witness for `updateOnly_fifo_close_before_drain` at a concrete run
with one matching and one non-matching line. -/
theorem updateOnly_fifo_close_before_drain_witness :
    (updateOnlyRun ⟨["A : Ok", "garbage"], none, "", none⟩).1 =
      [ChanEvent.emit { App := "A", Status := "Ok", Reason := "", Version := "" },
       ChanEvent.close, ChanEvent.drainStderr] :=
  (updateOnly_fifo_close_before_drain
    ⟨["A : Ok", "garbage"], none, "", none⟩ rfl).trans (by decide)

/-- C5: a read failure on standard output is returned immediately; the
loop aborts and the channel is never closed on this path. -/
theorem updateOnly_read_error_aborts (p : ProcOutput) (e : String)
    (hr : p.readErr = some e) :
    (updateOnlyRun p).2 = some (RunError.readFail e) ∧
    ChanEvent.close ∉ (updateOnlyRun p).1 := by
  constructor
  · simp [updateOnlyRun, runOp, hr, readLoop_fail]
  · simp [updateOnlyRun, runOp, hr, readLoop_fail]

/-- Witness for `updateOnly_read_error_aborts` at a concrete run. -/
theorem updateOnly_read_error_aborts_witness :
    (updateOnlyRun ⟨["A : Ok"], some "broken pipe", "", none⟩).2 =
      some (RunError.readFail "broken pipe") ∧
    ChanEvent.close ∉ (updateOnlyRun ⟨["A : Ok"], some "broken pipe", "", none⟩).1 :=
  updateOnly_read_error_aborts ⟨["A : Ok"], some "broken pipe", "", none⟩
    "broken pipe" rfl

end NiniteClassic
